import Mathlib

/-!
Shallow embedding of the Gamma AI (AI-PPTX) data layer and generation
pipeline: the MySQL schema from `database/schema.sql` and
`models/database.PY`, the `execute_query` helper, cascade deletion, the
`popular_presentations` analytics view, and the generation and export
orchestration described in the specification.  Timestamps, JSON metadata
columns and the row contents fetched by SELECT statements are not
modelled; no claim depends on them.
-/

namespace GammaAI

/-- A row of the `users` table (`schema.sql`: `id` PRIMARY KEY, `username`
UNIQUE, `email` UNIQUE, `password`; profile columns omitted). -/
structure UserRow where
  id : Nat
  username : String
  email : String
  password : String
  deriving DecidableEq

/-- A row of the `presentations` table (`schema.sql`): owning user, title,
JSON content blob, theme, public flag and view counter. -/
structure PresentationRow where
  id : Nat
  user_id : Nat
  title : String
  content : String
  theme : String
  is_public : Bool
  views : Nat
  deriving DecidableEq

/-- A row of the `slides` table (`models/database.PY`, `init_db`): child of
a presentation with an ordinal `slide_number`. -/
structure SlideRow where
  id : Nat
  presentation_id : Nat
  slide_number : Nat
  title : String
  content : String
  deriving DecidableEq

/-- The relational store. -/
structure DB where
  users : List UserRow
  presentations : List PresentationRow
  slides : List SlideRow
  deriving DecidableEq

/-- MySQL error classes relevant to the embedded statements. -/
inductive DBError where
  | duplicateEntry
  | fkViolation
  deriving DecidableEq

/-- The write statements the application issues through `execute_query`. -/
inductive Stmt where
  | insertUser (u : UserRow)
  | insertPresentation (p : PresentationRow)
  | insertSlide (s : SlideRow)
  deriving DecidableEq

/-- Effect of `cursor.execute` on the pending connection state: enforces
the schema's PRIMARY KEY, UNIQUE and FOREIGN KEY constraints and returns
the new pending state together with `cursor.lastrowid`. -/
def applyStmt : Stmt → DB → Except DBError (DB × Nat)
  | .insertUser u, db =>
      if db.users.any (fun x => x.id == u.id || x.username == u.username || x.email == u.email) then
        .error .duplicateEntry
      else
        .ok ({ db with users := db.users ++ [u] }, u.id)
  | .insertPresentation p, db =>
      if db.presentations.any (fun x => x.id == p.id) then
        .error .duplicateEntry
      else if db.users.any (fun x => x.id == p.user_id) then
        .ok ({ db with presentations := db.presentations ++ [p] }, p.id)
      else
        .error .fkViolation
  | .insertSlide s, db =>
      if db.slides.any (fun x => x.id == s.id) then
        .error .duplicateEntry
      else if db.presentations.any (fun x => x.id == s.presentation_id) then
        .ok ({ db with slides := db.slides ++ [s] }, s.id)
      else
        .error .fkViolation

/-- A pooled connection with `autocommit=False`: the durable `committed`
state, the `pending` uncommitted work, the open-transaction flag and the
open flag. -/
structure Conn where
  committed : DB
  pending : DB
  inTx : Bool
  isOpen : Bool
  deriving DecidableEq

def connect (db : DB) : Conn := ⟨db, db, false, true⟩

def commitConn (c : Conn) : Conn := { c with committed := c.pending, inTx := false }

def rollbackConn (c : Conn) : Conn := { c with pending := c.committed, inTx := false }

/-- Closing returns the connection to the pool; uncommitted work is
discarded (`pool_reset_session=True`). -/
def closeConn (c : Conn) : Conn :=
  { c with pending := c.committed, inTx := false, isOpen := false }

/-- Decidable equality for `Except`, used to evaluate query outcomes on
concrete inputs. -/
def exceptDecEq {ε α : Type} [DecidableEq ε] [DecidableEq α] :
    (a b : Except ε α) → Decidable (a = b)
  | .ok a, .ok b =>
      if h : a = b then .isTrue (by rw [h])
      else .isFalse (by intro hh; cases hh; exact h rfl)
  | .ok _, .error _ => .isFalse (by intro h; cases h)
  | .error _, .ok _ => .isFalse (by intro h; cases h)
  | .error a, .error b =>
      if h : a = b then .isTrue (by rw [h])
      else .isFalse (by intro hh; cases hh; exact h rfl)

instance {ε α : Type} [DecidableEq ε] [DecidableEq α] : DecidableEq (Except ε α) :=
  exceptDecEq

/-- Observable outcome of one `execute_query` call.  For a fetching call
the `result` field abstracts the fetched rows by the last inserted id. -/
structure QueryTrace where
  conn : Conn
  cursorClosed : Bool
  rolledBack : Bool
  result : Except DBError Nat
  deriving DecidableEq

/-- `execute_query` from `models/database.PY`: obtain a connection and a
cursor, execute the statement; on success with `fetch=False` commit and
return `cursor.lastrowid`; on success with `fetch=True` return without
committing; on a database error roll back and re-raise.  The `finally`
block closes the cursor and the connection on every path. -/
def execute_query (db : DB) (stmt : Stmt) (fetch : Bool) : QueryTrace :=
  match applyStmt stmt (connect db).pending with
  | .ok (db2, rid) =>
      if fetch then
        ⟨closeConn { connect db with pending := db2, inTx := true }, true, false, .ok rid⟩
      else
        ⟨closeConn (commitConn { connect db with pending := db2, inTx := true }),
          true, false, .ok rid⟩
  | .error e =>
      ⟨closeConn (rollbackConn { connect db with inTx := true }), true, true, .error e⟩

/-- Modelled from the spec: the slide-persistence loop of the generation
route (the route module itself is not among the sources); each slide row
is inserted by its own `execute_query` call, starting from the previous
call's committed state.  Returns the final committed state and the first
error, if any. -/
def persistSlides : DB → List SlideRow → DB × Option DBError
  | db, [] => (db, none)
  | db, s :: rest =>
      match (execute_query db (.insertSlide s) false).result with
      | .error e => ((execute_query db (.insertSlide s) false).conn.committed, some e)
      | .ok _ => persistSlides (execute_query db (.insertSlide s) false).conn.committed rest

/-- Modelled from the spec: persistence of a generated presentation —
insert the presentation row, then its slide rows, all through
`execute_query` (the only database helper the sources provide). -/
def persistPresentationAndSlides (db : DB) (p : PresentationRow) (ss : List SlideRow) :
    DB × Option DBError :=
  match (execute_query db (.insertPresentation p) false).result with
  | .error e => ((execute_query db (.insertPresentation p) false).conn.committed, some e)
  | .ok _ => persistSlides (execute_query db (.insertPresentation p) false).conn.committed ss

/-- `DELETE FROM users WHERE id = uid` together with the schema's
`ON DELETE CASCADE` chain: the user's presentations are removed, and the
slides of each removed presentation are removed in turn. -/
def deleteUser (db : DB) (uid : Nat) : DB :=
  { users := db.users.filter (fun u => u.id != uid),
    presentations := db.presentations.filter (fun p => p.user_id != uid),
    slides := db.slides.filter (fun s =>
      !(db.presentations.any (fun p => p.user_id == uid && p.id == s.presentation_id))) }

/-- The `UNIQUE` constraint on `users.email`, read as a table invariant. -/
def emailsUnique (db : DB) : Prop :=
  db.users.Pairwise (fun a b => a.email ≠ b.email)

instance (db : DB) : Decidable (emailsUnique db) := by
  unfold emailsUnique; infer_instance

/-- A row of the `popular_presentations` analytics view from
`database/schema.sql` (the `created_at` timestamp is omitted). -/
structure PopularRow where
  id : Nat
  title : String
  theme : String
  views : Nat
  username : String
  deriving DecidableEq

/-- Insertion step for `ORDER BY p.views DESC`. -/
def insertByViews (r : PopularRow) : List PopularRow → List PopularRow
  | [] => [r]
  | x :: xs => if x.views ≤ r.views then r :: x :: xs else x :: insertByViews r xs

def sortByViewsDesc : List PopularRow → List PopularRow
  | [] => []
  | x :: xs => insertByViews x (sortByViewsDesc xs)

/-- The `popular_presentations` view from `database/schema.sql`: public
presentations joined with their owner, ordered by views descending and
limited to 100 rows.  The view takes no requester parameter: its rows are
computed the same way for every user that queries it. -/
def popular_presentations (db : DB) : List PopularRow :=
  (sortByViewsDesc ((db.presentations.filter (fun p => p.is_public)).filterMap (fun p =>
    (db.users.find? (fun u => u.id == p.user_id)).map (fun u =>
      ⟨p.id, p.title, p.theme, p.views, u.username⟩)))).take 100

/-- Ordinal positions of the slides belonging to presentation `pid`. -/
def numbersFor (db : DB) (pid : Nat) : List Nat :=
  (db.slides.filter (fun s => s.presentation_id == pid)).map (fun s => s.slide_number)

/-- Invariant on the `slides` table: within each presentation the slide
numbers are exactly 1, 2, …, n — unique and contiguous starting at 1. -/
def slideNumInvariant (db : DB) : Prop :=
  ∀ pid ∈ db.slides.map (fun s => s.presentation_id),
    List.Perm (numbersFor db pid) (List.range' 1 (numbersFor db pid).length)

instance (db : DB) : Decidable (slideNumInvariant db) := by
  unfold slideNumInvariant; infer_instance

/-- Modelled from the spec: the generation step numbers the parsed slides
1… in order when it builds the child rows of a fresh presentation (the
route module performing this is not among the sources). -/
def mkSlideRowsFrom (firstId pid n : Nat) : List (String × String) → List SlideRow
  | [] => []
  | it :: its => ⟨firstId + n, pid, n + 1, it.1, it.2⟩ :: mkSlideRowsFrom firstId pid (n + 1) its

def mkSlideRows (firstId pid : Nat) (items : List (String × String)) : List SlideRow :=
  mkSlideRowsFrom firstId pid 0 items

/-- Modelled from the spec: slide creation for a fresh presentation —
append the numbered child rows. -/
def createSlides (db : DB) (firstId pid : Nat) (items : List (String × String)) : DB :=
  { db with slides := db.slides ++ mkSlideRows firstId pid items }

/-- Modelled from the spec: a manual edit rewrites a slide's title and
content in place, leaving its ordinal position and its presentation
unchanged. -/
def editSlide (db : DB) (sid : Nat) (t c : String) : DB :=
  { db with slides := db.slides.map (fun s =>
      if s.id == sid then { s with title := t, content := c } else s) }

/-- Insertion step for `ORDER BY slide_number`. -/
def insertByNumber (s : SlideRow) : List SlideRow → List SlideRow
  | [] => [s]
  | x :: xs => if s.slide_number ≤ x.slide_number then s :: x :: xs else x :: insertByNumber s xs

def sortByNumber : List SlideRow → List SlideRow
  | [] => []
  | x :: xs => insertByNumber x (sortByNumber xs)

/-- The stored slides of a presentation in `slide_number` order. -/
def storedSlides (db : DB) (pid : Nat) : List SlideRow :=
  sortByNumber (db.slides.filter (fun s => s.presentation_id == pid))

inductive ExportFormat where
  | pdf
  | docx
  | pptx
  deriving DecidableEq

/-- Modelled from the spec: an exported artifact — the target format plus
the ordered (title, content) pages; visual rendering is delegated to the
format-specific libraries and abstracted away. -/
structure ExportArtifact where
  format : ExportFormat
  pages : List (String × String)
  deriving DecidableEq

/-- Modelled from the spec: the export adapter — look up the presentation,
check ownership, and render all stored slides in order with their title
and content; an unknown presentation or foreign ownership yields no
artifact. -/
def exportPresentation (db : DB) (uid pid : Nat) (fmt : ExportFormat) :
    Option ExportArtifact :=
  match db.presentations.find? (fun p => p.id == pid) with
  | none => none
  | some p =>
      if p.user_id == uid then
        some ⟨fmt, (storedSlides db pid).map (fun s => (s.title, s.content))⟩
      else
        none

/-- Reading the slide titles back from an exported artifact. -/
def readBackTitles (a : ExportArtifact) : List String := a.pages.map (fun pg => pg.1)

/-- Reading the slide contents back from an exported artifact. -/
def readBackContents (a : ExportArtifact) : List String := a.pages.map (fun pg => pg.2)

/-- A slide object as it appears in the AI response, before validation of
its fields. -/
structure RawSlide where
  title? : Option String
  content? : Option String
  deriving DecidableEq

/-- A normalized slide record with the two mandatory fields. -/
structure Slide where
  title : String
  content : String
  deriving DecidableEq

/-- Modelled from the spec: a slide object parses only when both its title
and its content field are present. -/
def parseSlide (r : RawSlide) : Option Slide :=
  match r.title?, r.content? with
  | some t, some c => some ⟨t, c⟩
  | _, _ => none

/-- Modelled from the spec: parsing the backend response is all-or-nothing
— any slide object missing a field makes the whole response malformed. -/
def parseResponse : List RawSlide → Option (List Slide)
  | [] => some []
  | r :: rs =>
      match parseSlide r, parseResponse rs with
      | some s, some ss => some (s :: ss)
      | _, _ => none

/-- An AI backend: maps the instruction text to a response; `none` models
a failed call (timeout, quota, transport error). -/
def Backend : Type := String → Option (List RawSlide)

/-- A generation request as accepted by the generate endpoint;
language/theme/style default when omitted. -/
structure GenRequest where
  prompt : String
  slides_count : Nat
  language : String := "English"
  theme : String := "dialogue"
  text_amount : String := "moderate"
  ai_model : String := "gemini"
  deriving DecidableEq

/-- Modelled from the spec: input validation — the slide count must lie
within 3–20 and the prompt must be non-empty. -/
def validRequest (r : GenRequest) : Bool :=
  decide (3 ≤ r.slides_count) && decide (r.slides_count ≤ 20) && decide (r.prompt ≠ "")

/-- Modelled from the spec: the natural-language instruction embedding the
options. -/
def buildInstruction (r : GenRequest) : String :=
  "Create a presentation about " ++ r.prompt ++ " with " ++ toString r.slides_count ++
    " slides in " ++ r.language ++ ", theme " ++ r.theme ++ ", " ++ r.text_amount ++ " text."

/-- Failure taxonomy of the generation pipeline. -/
inductive GenError where
  | validation
  | api
  | server
  deriving DecidableEq

/-- One backend attempt: the call followed by parsing; it fails on a
failed call or a malformed response. -/
def callBackend (b : Backend) (instr : String) : Option (List Slide) :=
  (b instr).bind parseResponse

/-- Modelled from the spec: the generation orchestrator
(`services/ai_service.py`, not among the sources) — validate the request,
build the instruction, try the primary backend, fall back once to the
secondary backend, and surface failure when both fail.  The result also
carries how many times each backend was called. -/
def generate_slides (primary secondary : Backend) (r : GenRequest) :
    Except GenError (List Slide) × Nat × Nat :=
  if validRequest r then
    match callBackend primary (buildInstruction r) with
    | some ss => (.ok ss, 1, 0)
    | none =>
        match callBackend secondary (buildInstruction r) with
        | some ss => (.ok ss, 1, 1)
        | none => (.error .api, 1, 1)
  else
    (.error .validation, 0, 0)

/-- Next AUTO_INCREMENT value over a list of existing ids. -/
def nextId (l : List Nat) : Nat := l.foldr max 0 + 1

/-- Modelled from the spec: the presentation row built from a successful
generation (content blob abbreviated to a flat serialization). -/
def mkPresentationRow (db : DB) (uid : Nat) (r : GenRequest) (ss : List Slide) :
    PresentationRow :=
  ⟨nextId (db.presentations.map (fun p => p.id)), uid, r.prompt,
    String.intercalate "\n" (ss.map (fun s => s.title ++ ": " ++ s.content)),
    r.theme, false, 0⟩

/-- Modelled from the spec: the generate route — run the orchestrator and,
on success, persist the presentation row and its numbered slide rows;
returns the new store, the outcome, and the backend call counts. -/
def handle_generate (primary secondary : Backend) (db : DB) (uid : Nat) (r : GenRequest) :
    DB × Except GenError Nat × Nat × Nat :=
  match generate_slides primary secondary r with
  | (.error e, cp, cs) => (db, .error e, cp, cs)
  | (.ok ss, cp, cs) =>
      match persistPresentationAndSlides db (mkPresentationRow db uid r ss)
          (mkSlideRows (nextId (db.slides.map (fun s => s.id)))
            (mkPresentationRow db uid r ss).id
            (ss.map (fun s => (s.title, s.content)))) with
      | (db2, none) => (db2, .ok (mkPresentationRow db uid r ss).id, cp, cs)
      | (db2, some _) => (db2, .error .server, cp, cs)

/-! Concrete stores and requests used by counterexamples and witnesses. -/

def exUser1 : UserRow := ⟨1, "alice", "alice@example.com", "h1"⟩

def exUser2 : UserRow := ⟨2, "bob", "bob@example.com", "h2"⟩

def exUser3 : UserRow := ⟨3, "carol", "alice@example.com", "h3"⟩

def exDB : DB := ⟨[exUser1, exUser2], [], []⟩

def pubPres (t : String) : PresentationRow := ⟨1, 1, t, "body", "dialogue", true, 7⟩

def dbPub1 : DB := ⟨[exUser1, exUser2], [pubPres "Secret Plan A"], []⟩

def dbPub2 : DB := ⟨[exUser1, exUser2], [pubPres "Secret Plan B"], []⟩

def privPres : PresentationRow := ⟨5, 1, "private notes", "body", "alien", false, 3⟩

def dbPriv1 : DB := ⟨[exUser1, exUser2], [privPres], []⟩

def dbPriv2 : DB := ⟨[exUser1, exUser2], [], []⟩

def exPres : PresentationRow := ⟨1, 1, "Climate Change", "blob", "dialogue", false, 0⟩

def dbOneUser : DB := ⟨[exUser1], [], []⟩

def badSlide : SlideRow := ⟨1, 999, 1, "Intro", "c1"⟩

def dbExp : DB :=
  ⟨[exUser1], [⟨1, 1, "Deck", "blob", "dialogue", false, 0⟩],
    [⟨2, 1, 2, "B", "b2"⟩, ⟨1, 1, 1, "A", "b1"⟩]⟩

def exArtifact : ExportArtifact := ⟨.pdf, [("A", "b1"), ("B", "b2")]⟩

def rawOk2 : List RawSlide := [⟨some "Intro", some "Overview"⟩, ⟨some "Summary", some "Wrap up"⟩]

def backend2 : Backend := fun _ => some rawOk2

def failBackend : Backend := fun _ => none

def req5 : GenRequest := { prompt := "Climate Change", slides_count := 5 }

def req25 : GenRequest := { prompt := "Climate Change", slides_count := 25 }

/-! Helper lemmas about statements, `execute_query` and the persistence
loop. -/

theorem insertUser_ok {u : UserRow} {db db2 : DB} {rid : Nat}
    (h : applyStmt (.insertUser u) db = .ok (db2, rid)) :
    db2 = { db with users := db.users ++ [u] } ∧ rid = u.id ∧
      db.users.any (fun x => x.id == u.id || x.username == u.username || x.email == u.email)
        = false := by
  simp only [applyStmt] at h
  split_ifs at h with h1
  simp only [Except.ok.injEq, Prod.mk.injEq] at h
  exact ⟨h.1.symm, h.2.symm, by simp [h1]⟩

theorem insertPresentation_ok {p : PresentationRow} {db db2 : DB} {rid : Nat}
    (h : applyStmt (.insertPresentation p) db = .ok (db2, rid)) :
    db2 = { db with presentations := db.presentations ++ [p] } ∧ rid = p.id := by
  simp only [applyStmt] at h
  split_ifs at h with h1 h2
  simp only [Except.ok.injEq, Prod.mk.injEq] at h
  exact ⟨h.1.symm, h.2.symm⟩

theorem insertSlide_ok {s : SlideRow} {db db2 : DB} {rid : Nat}
    (h : applyStmt (.insertSlide s) db = .ok (db2, rid)) :
    db2 = { db with slides := db.slides ++ [s] } ∧ rid = s.id := by
  simp only [applyStmt] at h
  split_ifs at h with h1 h2
  simp only [Except.ok.injEq, Prod.mk.injEq] at h
  exact ⟨h.1.symm, h.2.symm⟩

theorem execute_query_ok {db db2 : DB} {stmt : Stmt} {rid : Nat}
    (h : applyStmt stmt db = .ok (db2, rid)) :
    execute_query db stmt false = ⟨⟨db2, db2, false, false⟩, true, false, .ok rid⟩ := by
  simp [execute_query, connect, commitConn, closeConn, h]

theorem execute_query_err {db : DB} {stmt : Stmt} {e : DBError}
    (h : applyStmt stmt db = .error e) :
    execute_query db stmt false = ⟨⟨db, db, false, false⟩, true, true, .error e⟩ := by
  simp [execute_query, connect, rollbackConn, closeConn, h]

theorem persistSlides_spec (ss : List SlideRow) : ∀ db : DB,
    ∃ k, ((persistSlides db ss).2 = none ∧ k = ss.length ∨
          ∃ e, (persistSlides db ss).2 = some e ∧ k < ss.length) ∧
      (persistSlides db ss).1 = { db with slides := db.slides ++ ss.take k } := by
  induction ss with
  | nil =>
      intro db
      exact ⟨0, Or.inl ⟨rfl, rfl⟩, by simp [persistSlides]⟩
  | cons s rest ih =>
      intro db
      cases ha : applyStmt (.insertSlide s) db with
      | error e =>
          refine ⟨0, Or.inr ⟨e, ?_, by simp⟩, ?_⟩
          · simp [persistSlides, execute_query_err ha]
          · simp [persistSlides, execute_query_err ha]
      | ok pr =>
          obtain ⟨db2, rid⟩ := pr
          obtain ⟨hdb2, -⟩ := insertSlide_ok ha
          obtain ⟨k, hk, heq⟩ := ih db2
          refine ⟨k + 1, ?_, ?_⟩
          · rcases hk with ⟨h1, h2⟩ | ⟨e, h1, h2⟩
            · exact Or.inl ⟨by simpa [persistSlides, execute_query_ok ha] using h1, by simp [h2]⟩
            · exact Or.inr ⟨e, by simpa [persistSlides, execute_query_ok ha] using h1,
                by simpa using h2⟩
          · have : (persistSlides db (s :: rest)).1 = (persistSlides db2 rest).1 := by
              simp [persistSlides, execute_query_ok ha]
            rw [this, heq, hdb2]
            simp [List.take_succ_cons]

/-- C9: every call to `execute_query` with `fetch=False` either commits
the statement and returns `cursor.lastrowid`, or rolls the connection back
and re-raises the database error; in both cases the cursor and the
connection are closed and no open transaction or partially applied
statement remains. -/
theorem execute_query_fetchFalse_atomic (db : DB) (stmt : Stmt) :
    (execute_query db stmt false).cursorClosed = true ∧
    (execute_query db stmt false).conn.isOpen = false ∧
    (execute_query db stmt false).conn.inTx = false ∧
    (execute_query db stmt false).conn.pending = (execute_query db stmt false).conn.committed ∧
    ((∃ db2 rid, applyStmt stmt db = .ok (db2, rid) ∧
        (execute_query db stmt false).result = .ok rid ∧
        (execute_query db stmt false).rolledBack = false ∧
        (execute_query db stmt false).conn.committed = db2) ∨
      (∃ e, applyStmt stmt db = .error e ∧
        (execute_query db stmt false).result = .error e ∧
        (execute_query db stmt false).rolledBack = true ∧
        (execute_query db stmt false).conn.committed = db)) := by
  cases ha : applyStmt stmt db with
  | error e =>
      rw [execute_query_err ha]
      exact ⟨rfl, rfl, rfl, rfl, Or.inr ⟨e, rfl, rfl, rfl, rfl⟩⟩
  | ok pr =>
      obtain ⟨db2, rid⟩ := pr
      rw [execute_query_ok ha]
      exact ⟨rfl, rfl, rfl, rfl, Or.inl ⟨db2, rid, rfl, rfl, rfl, rfl⟩⟩

/-- Witness for C9 at a concrete store and statement. -/
theorem execute_query_fetchFalse_atomic_witness :
    (execute_query dbOneUser (.insertUser exUser2) false).cursorClosed = true ∧
    (execute_query dbOneUser (.insertUser exUser2) false).conn.isOpen = false ∧
    (execute_query dbOneUser (.insertUser exUser2) false).conn.inTx = false ∧
    (execute_query dbOneUser (.insertUser exUser2) false).conn.pending =
      (execute_query dbOneUser (.insertUser exUser2) false).conn.committed ∧
    ((∃ db2 rid, applyStmt (.insertUser exUser2) dbOneUser = .ok (db2, rid) ∧
        (execute_query dbOneUser (.insertUser exUser2) false).result = .ok rid ∧
        (execute_query dbOneUser (.insertUser exUser2) false).rolledBack = false ∧
        (execute_query dbOneUser (.insertUser exUser2) false).conn.committed = db2) ∨
      (∃ e, applyStmt (.insertUser exUser2) dbOneUser = .error e ∧
        (execute_query dbOneUser (.insertUser exUser2) false).result = .error e ∧
        (execute_query dbOneUser (.insertUser exUser2) false).rolledBack = true ∧
        (execute_query dbOneUser (.insertUser exUser2) false).conn.committed = dbOneUser)) :=
  execute_query_fetchFalse_atomic dbOneUser (.insertUser exUser2)

/-- C2 fails as stated: with the store holding only user 1, persisting a
presentation row together with one slide row whose foreign key is invalid
commits the presentation row and then fails, leaving the presentation row
persisted with no slide data — a partial result remains on error. -/
theorem persist_partial_rows_cex :
    (persistPresentationAndSlides dbOneUser exPres [badSlide]).2 = some .fkViolation ∧
    (persistPresentationAndSlides dbOneUser exPres [badSlide]).1 ≠ dbOneUser ∧
    (persistPresentationAndSlides dbOneUser exPres [badSlide]).1.presentations = [exPres] ∧
    (persistPresentationAndSlides dbOneUser exPres [badSlide]).1.slides = [] := by decide

/-- C2 (amended): each statement of the persistence flow is individually
atomic, but the flow spans independently committed statements: the
resulting store is always the old store, or the old store plus the
presentation row and a take-k-slides initial segment; the outcome is a
success exactly when every row was persisted. -/
theorem persist_commits_initial_segment (db : DB) (p : PresentationRow)
    (ss : List SlideRow) :
    (∃ e, applyStmt (.insertPresentation p) db = .error e ∧
      persistPresentationAndSlides db p ss = (db, some e)) ∨
    (∃ k, ((persistPresentationAndSlides db p ss).2 = none ∧ k = ss.length ∨
        ∃ e, (persistPresentationAndSlides db p ss).2 = some e ∧ k < ss.length) ∧
      (persistPresentationAndSlides db p ss).1 =
        { db with presentations := db.presentations ++ [p],
                  slides := db.slides ++ ss.take k }) := by
  cases ha : applyStmt (.insertPresentation p) db with
  | error e =>
      exact Or.inl ⟨e, rfl, by simp [persistPresentationAndSlides, execute_query_err ha]⟩
  | ok pr =>
      obtain ⟨db2, rid⟩ := pr
      obtain ⟨hdb2, -⟩ := insertPresentation_ok ha
      have hred : persistPresentationAndSlides db p ss = persistSlides db2 ss := by
        simp [persistPresentationAndSlides, execute_query_ok ha]
      obtain ⟨k, hk, heq⟩ := persistSlides_spec ss db2
      refine Or.inr ⟨k, by rw [hred]; exact hk, ?_⟩
      rw [hred, heq, hdb2]

/-- C10: the `UNIQUE` constraint on `users.email` — inserting a user
preserves pairwise-distinct emails, and inserting a second user with an
existing email fails with a duplicate-entry error and leaves the users
table unchanged. -/
theorem email_unique_enforced (db : DB) (u : UserRow) (h : emailsUnique db) :
    emailsUnique ((execute_query db (.insertUser u) false).conn.committed) ∧
    ((∃ x ∈ db.users, x.email = u.email) →
      (execute_query db (.insertUser u) false).result = .error .duplicateEntry ∧
      (execute_query db (.insertUser u) false).conn.committed = db) := by
  cases ha : applyStmt (.insertUser u) db with
  | error e =>
      have he : e = .duplicateEntry := by
        simp only [applyStmt] at ha
        split_ifs at ha
        simp only [Except.error.injEq] at ha
        exact ha.symm
      rw [execute_query_err ha]
      exact ⟨h, fun _ => ⟨by rw [he], rfl⟩⟩
  | ok pr =>
      obtain ⟨db2, rid⟩ := pr
      obtain ⟨hdb2, -, hany⟩ := insertUser_ok ha
      rw [List.any_eq_false] at hany
      rw [execute_query_ok ha]
      constructor
      · show emailsUnique db2
        rw [hdb2]
        unfold emailsUnique at h ⊢
        simp only [List.pairwise_append]
        refine ⟨h, List.pairwise_singleton _ _, ?_⟩
        intro a hal b hb
        simp only [List.mem_singleton] at hb
        subst hb
        intro hc
        exact hany a hal (by simp [hc])
      · intro ⟨x, hx, he⟩
        exact absurd (by simp [he] : (x.id == u.id || x.username == u.username ||
          x.email == u.email) = true) (hany x hx)

/-- Witness for C10: carol reuses alice's email. -/
theorem email_unique_enforced_witness :
    emailsUnique ((execute_query exDB (.insertUser exUser3) false).conn.committed) ∧
    ((∃ x ∈ exDB.users, x.email = exUser3.email) →
      (execute_query exDB (.insertUser exUser3) false).result = .error .duplicateEntry ∧
      (execute_query exDB (.insertUser exUser3) false).conn.committed = exDB) :=
  email_unique_enforced exDB exUser3 (by decide)

/-- C7: deleting a user removes every presentation the user owns and,
transitively, every slide of those presentations; no surviving row
references the deleted user. -/
theorem deleteUser_cascades (db : DB) (uid : Nat) :
    (∀ u ∈ (deleteUser db uid).users, u.id ≠ uid) ∧
    (∀ p ∈ (deleteUser db uid).presentations, p.user_id ≠ uid) ∧
    (∀ s ∈ (deleteUser db uid).slides, ∀ p ∈ db.presentations,
      p.id = s.presentation_id → p.user_id ≠ uid) := by
  refine ⟨?_, ?_, ?_⟩
  · intro u hu
    simp only [deleteUser, List.mem_filter, bne_iff_ne, ne_eq] at hu
    exact hu.2
  · intro p hp
    simp only [deleteUser, List.mem_filter, bne_iff_ne, ne_eq] at hp
    exact hp.2
  · intro s hs p hp hid hu
    simp only [deleteUser, List.mem_filter, Bool.not_eq_true'] at hs
    rw [List.any_eq_false] at hs
    have := hs.2 p hp
    simp only [Bool.and_eq_true, beq_iff_eq, not_and] at this
    exact this hu hid

/-- Witness for C7 at a concrete store. -/
theorem deleteUser_cascades_witness :
    (∀ u ∈ (deleteUser dbExp 1).users, u.id ≠ 1) ∧
    (∀ p ∈ (deleteUser dbExp 1).presentations, p.user_id ≠ 1) ∧
    (∀ s ∈ (deleteUser dbExp 1).slides, ∀ p ∈ dbExp.presentations,
      p.id = s.presentation_id → p.user_id ≠ 1) :=
  deleteUser_cascades dbExp 1

/-- C5 fails as stated: the `popular_presentations` view is computed
identically for every requesting user, and it exposes a public
presentation owned by user 1 — two stores that differ only in that
presentation's title produce different view contents while user 2 (a
distinct user) exists. -/
theorem owner_only_visibility_cex :
    dbPub1.users = dbPub2.users ∧
    (dbPub1.presentations.all fun p => p.user_id == 1) = true ∧
    (dbPub2.presentations.all fun p => p.user_id == 1) = true ∧
    (dbPub1.users.any fun u => u.id == 2) = true ∧
    popular_presentations dbPub1 ≠ popular_presentations dbPub2 := by decide

/-- C5 (amended): owner-only visibility holds for non-public
presentations — the output of the `popular_presentations` view is
independent of every presentation stored with `is_public = FALSE`, while
public presentations are deliberately visible to all users. -/
theorem popular_view_ignores_private (db1 db2 : DB)
    (hu : db1.users = db2.users)
    (hp : db1.presentations.filter (fun p => p.is_public) =
      db2.presentations.filter (fun p => p.is_public)) :
    popular_presentations db1 = popular_presentations db2 := by
  simp only [popular_presentations, hu, hp]

/-- Witness for the amended C5: a store with one private presentation and
the same store without it yield the same view output. -/
theorem popular_view_ignores_private_witness :
    popular_presentations dbPriv1 = popular_presentations dbPriv2 :=
  popular_view_ignores_private dbPriv1 dbPriv2 rfl (by decide)

/-! Parsing lemmas for the generation orchestrator. -/

theorem parseSlide_some {r : RawSlide} {s : Slide} (h : parseSlide r = some s) :
    r.title?.isSome ∧ r.content?.isSome := by
  unfold parseSlide at h
  cases ht : r.title? <;> cases hc : r.content? <;> rw [ht, hc] at h
  · exact Option.noConfusion h
  · exact Option.noConfusion h
  · exact Option.noConfusion h
  · exact ⟨rfl, rfl⟩

theorem parseResponse_length : ∀ {rs : List RawSlide} {ss : List Slide},
    parseResponse rs = some ss → ss.length = rs.length := by
  intro rs
  induction rs with
  | nil =>
      intro ss h
      simp only [parseResponse, Option.some.injEq] at h
      subst h
      rfl
  | cons r rest ih =>
      intro ss h
      unfold parseResponse at h
      cases hp : parseSlide r with
      | none => rw [hp] at h; exact Option.noConfusion h
      | some s =>
          cases hr : parseResponse rest with
          | none => rw [hp, hr] at h; exact Option.noConfusion h
          | some ss2 =>
              rw [hp, hr] at h
              simp only [Option.some.injEq] at h
              subst h
              simp [ih hr]

theorem parseResponse_wellformed : ∀ {rs : List RawSlide} {ss : List Slide},
    parseResponse rs = some ss →
    ∀ raw ∈ rs, raw.title?.isSome ∧ raw.content?.isSome := by
  intro rs
  induction rs with
  | nil => intro ss _ raw hraw; cases hraw
  | cons r rest ih =>
      intro ss h raw hraw
      unfold parseResponse at h
      cases hp : parseSlide r with
      | none => rw [hp] at h; exact Option.noConfusion h
      | some s =>
          cases hr : parseResponse rest with
          | none => rw [hp, hr] at h; exact Option.noConfusion h
          | some ss2 =>
              rcases List.mem_cons.mp hraw with hq | hq
              · subst hq; exact parseSlide_some hp
              · exact ih hr raw hq

/-- C1 fails as stated: a valid request for 5 slides against a backend
that returns 2 well-formed slide objects is answered as a success holding
only 2 slides — fewer than requested. -/
theorem generation_count_cex :
    validRequest req5 = true ∧
    (generate_slides backend2 backend2 req5).1 =
      .ok [⟨"Intro", "Overview"⟩, ⟨"Summary", "Wrap up"⟩] ∧
    ([(⟨"Intro", "Overview"⟩ : Slide), ⟨"Summary", "Wrap up"⟩]).length <
      req5.slides_count := by decide

/-- C1 (amended): on success the result is the complete all-or-nothing
parse of a single backend response — every returned slide object carries
both a title and a content field and nothing is truncated relative to the
response — but the response length is not checked against the requested
`slides_count`. -/
theorem generation_success_full_parse (primary secondary : Backend) (r : GenRequest)
    (ss : List Slide) (hok : (generate_slides primary secondary r).1 = .ok ss) :
    ∃ rs : List RawSlide,
      (primary (buildInstruction r) = some rs ∨
        (callBackend primary (buildInstruction r) = none ∧
          secondary (buildInstruction r) = some rs)) ∧
      parseResponse rs = some ss ∧
      ss.length = rs.length ∧
      ∀ raw ∈ rs, raw.title?.isSome ∧ raw.content?.isSome := by
  by_cases hv : validRequest r = true
  · cases hcp : callBackend primary (buildInstruction r) with
    | some ss2 =>
        have hss : ss2 = ss := by simpa [generate_slides, hv, hcp] using hok
        subst hss
        unfold callBackend at hcp
        obtain ⟨rs, h1, h2⟩ := Option.bind_eq_some.mp hcp
        exact ⟨rs, Or.inl h1, h2, parseResponse_length h2, parseResponse_wellformed h2⟩
    | none =>
        cases hcs : callBackend secondary (buildInstruction r) with
        | some ss2 =>
            have hss : ss2 = ss := by simpa [generate_slides, hv, hcp, hcs] using hok
            subst hss
            unfold callBackend at hcs
            obtain ⟨rs, h1, h2⟩ := Option.bind_eq_some.mp hcs
            exact ⟨rs, Or.inr ⟨rfl, h1⟩, h2, parseResponse_length h2,
              parseResponse_wellformed h2⟩
        | none => simp [generate_slides, hv, hcp, hcs] at hok
  · simp [generate_slides, hv] at hok

/-- Witness for the amended C1 at the concrete two-slide backend. -/
theorem generation_success_full_parse_witness :
    ∃ rs : List RawSlide,
      (backend2 (buildInstruction req5) = some rs ∨
        (callBackend backend2 (buildInstruction req5) = none ∧
          backend2 (buildInstruction req5) = some rs)) ∧
      parseResponse rs = some [⟨"Intro", "Overview"⟩, ⟨"Summary", "Wrap up"⟩] ∧
      ([(⟨"Intro", "Overview"⟩ : Slide), ⟨"Summary", "Wrap up"⟩]).length = rs.length ∧
      ∀ raw ∈ rs, raw.title?.isSome ∧ raw.content?.isSome :=
  generation_success_full_parse backend2 backend2 req5
    [⟨"Intro", "Overview"⟩, ⟨"Summary", "Wrap up"⟩] (by decide)

/-- C3: when the primary backend call fails or its response is malformed,
the orchestrator makes exactly one call to the secondary backend (the
call counters are exactly 1 and 1, so no further automatic retry occurs),
succeeds when the secondary parse succeeds, and surfaces a generation
failure when both backends fail. -/
theorem fallback_single_retry (primary secondary : Backend) (r : GenRequest)
    (hv : validRequest r = true)
    (hp : callBackend primary (buildInstruction r) = none) :
    (generate_slides primary secondary r).2.1 = 1 ∧
    (generate_slides primary secondary r).2.2 = 1 ∧
    (callBackend secondary (buildInstruction r) = none →
      (generate_slides primary secondary r).1 = .error .api) ∧
    (∀ ss, callBackend secondary (buildInstruction r) = some ss →
      (generate_slides primary secondary r).1 = .ok ss) := by
  cases hcs : callBackend secondary (buildInstruction r) with
  | none => simp [generate_slides, hv, hp, hcs]
  | some ss2 => simp [generate_slides, hv, hp, hcs]

/-- Witness for C3: the primary backend times out, the secondary
succeeds. -/
theorem fallback_single_retry_witness :
    (generate_slides failBackend backend2 req5).2.1 = 1 ∧
    (generate_slides failBackend backend2 req5).2.2 = 1 ∧
    (callBackend backend2 (buildInstruction req5) = none →
      (generate_slides failBackend backend2 req5).1 = .error .api) ∧
    (∀ ss, callBackend backend2 (buildInstruction req5) = some ss →
      (generate_slides failBackend backend2 req5).1 = .ok ss) :=
  fallback_single_retry failBackend backend2 req5 (by decide) rfl

/-- C4: a generation request whose slide count lies outside 3–20 is
rejected with a validation error before any backend call — both call
counters are 0 and the store is unchanged. -/
theorem invalid_count_rejected (primary secondary : Backend) (db : DB) (uid : Nat)
    (r : GenRequest) (h : r.slides_count < 3 ∨ 20 < r.slides_count) :
    handle_generate primary secondary db uid r = (db, .error .validation, 0, 0) := by
  have hv : validRequest r = false := by
    unfold validRequest
    rcases h with h | h
    · have h3 : ¬ 3 ≤ r.slides_count := by omega
      simp [h3]
    · have h20 : ¬ r.slides_count ≤ 20 := by omega
      simp [h20]
  simp [handle_generate, generate_slides, hv]

/-- Witness for C4: the spec's example `slides_count = 25`. -/
theorem invalid_count_rejected_witness :
    handle_generate backend2 backend2 exDB 1 req25 = (exDB, .error .validation, 0, 0) :=
  invalid_count_rejected backend2 backend2 exDB 1 req25 (Or.inr (by decide))

/-! Lemmas about the slide-numbering operations. -/

theorem mkSlideRowsFrom_spec (items : List (String × String)) : ∀ f pid n : Nat,
    (mkSlideRowsFrom f pid n items).map (fun s => s.slide_number) =
      List.range' (n + 1) items.length ∧
    ∀ s ∈ mkSlideRowsFrom f pid n items, s.presentation_id = pid := by
  induction items with
  | nil =>
      intro f pid n
      exact ⟨rfl, by intro s hs; cases hs⟩
  | cons it its ih =>
      intro f pid n
      obtain ⟨h1, h2⟩ := ih f pid (n + 1)
      refine ⟨?_, ?_⟩
      · simp only [mkSlideRowsFrom, List.map_cons, h1, List.length_cons, List.range'_succ]
      · intro s hs
        rcases List.mem_cons.mp hs with hq | hq
        · rw [hq]
        · exact h2 s hq

theorem numbersFor_createSlides_self (db : DB) (f pid : Nat)
    (items : List (String × String))
    (hfresh : ∀ s ∈ db.slides, s.presentation_id ≠ pid) :
    numbersFor (createSlides db f pid items) pid = List.range' 1 items.length := by
  unfold numbersFor createSlides
  rw [List.filter_append, List.map_append]
  have h0 : db.slides.filter (fun s => s.presentation_id == pid) = [] := by
    rw [List.filter_eq_nil_iff]
    intro s hs
    simpa using hfresh s hs
  have hall : (mkSlideRows f pid items).filter (fun s => s.presentation_id == pid) =
      mkSlideRows f pid items := by
    rw [List.filter_eq_self]
    intro s hs
    simp [(mkSlideRowsFrom_spec items f pid 0).2 s hs]
  rw [h0, hall]
  simpa using (mkSlideRowsFrom_spec items f pid 0).1

theorem numbersFor_createSlides_other (db : DB) (f pid : Nat)
    (items : List (String × String)) (pid' : Nat) (hne : pid' ≠ pid) :
    numbersFor (createSlides db f pid items) pid' = numbersFor db pid' := by
  unfold numbersFor createSlides
  rw [List.filter_append, List.map_append]
  have hz : (mkSlideRows f pid items).filter (fun s => s.presentation_id == pid') = [] := by
    rw [List.filter_eq_nil_iff]
    intro s hs
    have := (mkSlideRowsFrom_spec items f pid 0).2 s hs
    simp [this]
    exact fun hq => hne hq.symm
  rw [hz]
  simp

theorem filter_map_update (sid : Nat) (t c : String) (pid : Nat) :
    ∀ l : List SlideRow,
    ((l.map (fun s => if s.id == sid then { s with title := t, content := c } else s)).filter
        (fun s => s.presentation_id == pid)).map (fun s => s.slide_number) =
      (l.filter (fun s => s.presentation_id == pid)).map (fun s => s.slide_number) := by
  intro l
  induction l with
  | nil => rfl
  | cons s l ih =>
      by_cases hid : s.id = sid <;> by_cases hp : s.presentation_id = pid <;>
        simpa [hid, hp, List.filter_cons] using ih

theorem map_presIds_update (sid : Nat) (t c : String) : ∀ l : List SlideRow,
    (l.map (fun s => if s.id == sid then { s with title := t, content := c } else s)).map
        (fun s => s.presentation_id) = l.map (fun s => s.presentation_id) := by
  intro l
  induction l with
  | nil => rfl
  | cons s l ih =>
      simp only [List.map_cons]
      rw [ih]
      by_cases hid : s.id = sid <;> simp [hid]

theorem editSlide_numbers (db : DB) (sid : Nat) (t c : String) (pid : Nat) :
    numbersFor (editSlide db sid t c) pid = numbersFor db pid :=
  filter_map_update sid t c pid db.slides

theorem editSlide_presIds (db : DB) (sid : Nat) (t c : String) :
    (editSlide db sid t c).slides.map (fun s => s.presentation_id) =
      db.slides.map (fun s => s.presentation_id) :=
  map_presIds_update sid t c db.slides

/-- C6: slide ordinal positions stay unique and contiguous from 1 —
creating the slides of a fresh presentation numbers them exactly
1, …, n, and a manual edit preserves the numbering invariant of the whole
store. -/
theorem slide_numbering_invariant (db : DB) (f pid : Nat)
    (items : List (String × String)) (sid : Nat) (t c : String)
    (hinv : slideNumInvariant db)
    (hfresh : ∀ s ∈ db.slides, s.presentation_id ≠ pid) :
    slideNumInvariant (createSlides db f pid items) ∧
    numbersFor (createSlides db f pid items) pid = List.range' 1 items.length ∧
    slideNumInvariant (editSlide db sid t c) := by
  refine ⟨?_, numbersFor_createSlides_self db f pid items hfresh, ?_⟩
  · intro pid' hmem
    by_cases hpe : pid' = pid
    · rw [hpe]
      rw [numbersFor_createSlides_self db f pid items hfresh]
      simp
    · rw [numbersFor_createSlides_other db f pid items pid' hpe]
      apply hinv
      simp only [createSlides, List.map_append, List.mem_append] at hmem
      rcases hmem with hq | hq
      · exact hq
      · exfalso
        simp only [List.mem_map] at hq
        obtain ⟨s, hs, hval⟩ := hq
        exact hpe (hval ▸ congrArg id ((mkSlideRowsFrom_spec items f pid 0).2 s hs).symm).symm
  · intro pid' hmem
    rw [editSlide_numbers]
    apply hinv
    rwa [editSlide_presIds] at hmem

/-- Witness for C6 at a concrete store: three slides attached to the
fresh presentation 2, and an edit of slide 1. -/
theorem slide_numbering_invariant_witness :
    slideNumInvariant (createSlides dbExp 10 2 [("a", "x"), ("b", "y"), ("c", "z")]) ∧
    numbersFor (createSlides dbExp 10 2 [("a", "x"), ("b", "y"), ("c", "z")]) 2 =
      List.range' 1 ([("a", "x"), ("b", "y"), ("c", "z")] : List (String × String)).length ∧
    slideNumInvariant (editSlide dbExp 1 "T2" "C2") :=
  slide_numbering_invariant dbExp 10 2 [("a", "x"), ("b", "y"), ("c", "z")] 1 "T2" "C2"
    (by decide) (by decide)

/-! Lemmas about the `slide_number` ordering used by the export adapter. -/

theorem mem_insertByNumber {s x : SlideRow} : ∀ {l : List SlideRow},
    x ∈ insertByNumber s l ↔ x = s ∨ x ∈ l := by
  intro l
  induction l with
  | nil => simp [insertByNumber]
  | cons y ys ih =>
      unfold insertByNumber
      split
      · simp
      · simp only [List.mem_cons, ih]
        tauto

theorem insertByNumber_perm (s : SlideRow) : ∀ l : List SlideRow,
    List.Perm (insertByNumber s l) (s :: l) := by
  intro l
  induction l with
  | nil => exact List.Perm.refl _
  | cons x xs ih =>
      unfold insertByNumber
      split
      · exact List.Perm.refl _
      · exact (ih.cons x).trans (List.Perm.swap s x xs)

theorem sortByNumber_perm : ∀ l : List SlideRow, List.Perm (sortByNumber l) l := by
  intro l
  induction l with
  | nil => exact List.Perm.refl _
  | cons x xs ih =>
      exact (insertByNumber_perm x (sortByNumber xs)).trans (ih.cons x)

theorem pairwise_insertByNumber {s : SlideRow} : ∀ {l : List SlideRow},
    l.Pairwise (fun a b => a.slide_number ≤ b.slide_number) →
    (insertByNumber s l).Pairwise (fun a b => a.slide_number ≤ b.slide_number) := by
  intro l
  induction l with
  | nil => intro _; simp [insertByNumber]
  | cons x xs ih =>
      intro h
      rw [List.pairwise_cons] at h
      obtain ⟨hx, hxs⟩ := h
      unfold insertByNumber
      split
      case isTrue hle =>
        rw [List.pairwise_cons]
        refine ⟨?_, List.pairwise_cons.mpr ⟨hx, hxs⟩⟩
        intro b hb
        rcases List.mem_cons.mp hb with hq | hq
        · rw [hq]; exact hle
        · exact le_trans hle (hx b hq)
      case isFalse hgt =>
        rw [List.pairwise_cons]
        refine ⟨?_, ih hxs⟩
        intro b hb
        rcases mem_insertByNumber.mp hb with hq | hq
        · rw [hq]; exact le_of_not_le hgt
        · exact hx b hq

theorem sortByNumber_sorted : ∀ l : List SlideRow,
    (sortByNumber l).Pairwise (fun a b => a.slide_number ≤ b.slide_number) := by
  intro l
  induction l with
  | nil => simp [sortByNumber]
  | cons x xs ih => exact pairwise_insertByNumber ih

/-- C8: exporting a stored presentation in any supported format and
reading the titles and contents back from the artifact yields exactly the
stored slides' titles and contents, in `slide_number` order: the rendered
pages are a sorted permutation of the presentation's slide rows. -/
theorem export_roundtrip (db : DB) (uid pid : Nat) (fmt : ExportFormat)
    (a : ExportArtifact) (hx : exportPresentation db uid pid fmt = some a) :
    readBackTitles a = (storedSlides db pid).map (fun s => s.title) ∧
    readBackContents a = (storedSlides db pid).map (fun s => s.content) ∧
    List.Perm (storedSlides db pid) (db.slides.filter (fun s => s.presentation_id == pid)) ∧
    (storedSlides db pid).Pairwise (fun x y => x.slide_number ≤ y.slide_number) ∧
    a.format = fmt := by
  have hsp := sortByNumber_perm (db.slides.filter (fun s => s.presentation_id == pid))
  have hss := sortByNumber_sorted (db.slides.filter (fun s => s.presentation_id == pid))
  unfold exportPresentation at hx
  cases hfind : db.presentations.find? (fun p => p.id == pid) with
  | none => rw [hfind] at hx; exact Option.noConfusion hx
  | some p =>
      rw [hfind] at hx
      simp only at hx
      split_ifs at hx
      simp only [Option.some.injEq] at hx
      subst hx
      exact ⟨by simp [readBackTitles], by simp [readBackContents], hsp, hss, rfl⟩

/-- Witness for C8: the two-slide store, stored out of order, exports in
`slide_number` order. -/
theorem export_roundtrip_witness :
    readBackTitles exArtifact = (storedSlides dbExp 1).map (fun s => s.title) ∧
    readBackContents exArtifact = (storedSlides dbExp 1).map (fun s => s.content) ∧
    List.Perm (storedSlides dbExp 1)
      (dbExp.slides.filter (fun s => s.presentation_id == 1)) ∧
    (storedSlides dbExp 1).Pairwise (fun x y => x.slide_number ≤ y.slide_number) ∧
    exArtifact.format = .pdf :=
  export_roundtrip dbExp 1 1 .pdf exArtifact (by decide)

end GammaAI
